import Mathlib

/-!
Verification of the data-catalog asset retrieval core.

The development shallowly embeds the retrieval engine of the repository:
`Location.get_parameter` (src/data_catalog/assets/location.py), and the
`Asset` data-fetch path (src/data_catalog/assets/asset.py): `get_data`,
`_get_data_from_url`, `_get_data_from_container` and `_get_container`.

Modelling conventions:
* Python `None` is `Option.none`; a fallible method returns `Except`.
* `datetime` instants are mapped to `Nat` through a mixed-radix key that is
  strictly monotone in the lexicographic field order `(year, month, day,
  hour, minute, second)`, the order `datetime` comparison uses; the current
  instant `datetime.now()` is an explicit `now : Nat` argument.
* The external collaborators the spec scopes out (the object store, the
  HTTP fetch and the pandas parser, the version metadata service) appear
  at their interfaces only: a store is a list of blobs in enumeration
  order, downloading and parsing one blob yields its rows (a `List α`),
  and concatenation of the parsed tables is `List.flatten`.
-/

deriving instance DecidableEq for Except

namespace DataCatalog

/-- A `(key, value)` parameter of a `Location`, as in the generated client
model consumed by src/data_catalog/assets/location.py. The value itself may
be the missing sentinel (`none`), and Python's `None` conflates that with an
absent parameter. -/
structure Param where
  key : String
  value : Option String
deriving DecidableEq, Repr

/-- Embeds `Location` of src/data_catalog/assets/location.py: a type tag
plus an ordered parameter list. -/
structure Location where
  type : String
  parameters : List Param
deriving DecidableEq, Repr

/-- Embeds `Location.get_parameter` (src/data_catalog/assets/location.py,
lines 8-11): filter the parameters on the key, return the first value if
any, else `None`. -/
def Location.get_parameter (loc : Location) (key : String) : Option String :=
  match (loc.parameters.filter (fun p => p.key == key)).map Param.value with
  | [] => none
  | v :: _ => v

/-- Numeric value of a decimal digit character. -/
def digitVal (c : Char) : Nat := c.toNat - 48

/-- Gregorian leap-year test, as `datetime` validates day-of-month. -/
def isLeap (y : Nat) : Bool := y % 4 == 0 && (y % 100 != 0 || y % 400 == 0)

/-- Days in a month, as `datetime` validates day-of-month. -/
def daysInMonth (y m : Nat) : Nat :=
  if m = 2 then (if isLeap y then 29 else 28)
  else if m = 4 ∨ m = 6 ∨ m = 9 ∨ m = 11 then 30
  else 31

/-- Mixed-radix key for an instant; strictly monotone in the lexicographic
order on `(y, mo, d, h, mi, s)` over the validated field ranges, hence
faithful to `datetime` comparison. -/
def timeKey (y mo d h mi s : Nat) : Nat :=
  ((((y * 12 + (mo - 1)) * 31 + (d - 1)) * 24 + h) * 60 + mi) * 60 + s

/-- Embeds `datetime.strptime(s, '%Y-%m-%dT%H:%M:%SZ')` as used at
src/data_catalog/assets/asset.py lines 176-177: a fixed-width
`YYYY-MM-DDTHH:MM:SSZ` timestamp with field-range validation; `none` is
the `ValueError` of a failed parse. -/
def parseTimestamp (s : String) : Option Nat :=
  match s.toList with
  | [y1, y2, y3, y4, a1, m1, m2, a2, d1, d2, a3, h1, h2, a4, n1, n2, a5, s1, s2, a6] =>
    if ([y1, y2, y3, y4, m1, m2, d1, d2, h1, h2, n1, n2, s1, s2].all Char.isDigit)
        && (a1 == '-') && (a2 == '-') && (a3 == 'T')
        && (a4 == ':') && (a5 == ':') && (a6 == 'Z') then
      let y := ((digitVal y1 * 10 + digitVal y2) * 10 + digitVal y3) * 10 + digitVal y4
      let mo := digitVal m1 * 10 + digitVal m2
      let d := digitVal d1 * 10 + digitVal d2
      let h := digitVal h1 * 10 + digitVal h2
      let mi := digitVal n1 * 10 + digitVal n2
      let ss := digitVal s1 * 10 + digitVal s2
      if 1 ≤ y ∧ 1 ≤ mo ∧ mo ≤ 12 ∧ 1 ≤ d ∧ d ≤ daysInMonth y mo
          ∧ h ≤ 23 ∧ mi ≤ 59 ∧ ss ≤ 59 then
        some (timeKey y mo d h mi ss)
      else none
    else none
  | _ => none

/-- Failures of `Asset._get_container` (src/data_catalog/assets/asset.py,
lines 166-190), distinguished by raise site: `typeError` is the uncaught
`TypeError` of `strptime(None, ...)` when `expiryTime` is absent,
`valueError` the uncaught `ValueError` of a failed `strptime` parse, and
`missingParams` the explicit `ValueError('Parameters missing to create the
container.')`. -/
inductive ContainerErr where
  | typeError
  | valueError
  | missingParams
deriving DecidableEq, Repr

/-- Embeds the credential-resolution steps of `Asset._get_container`
(src/data_catalog/assets/asset.py, lines 173-183): if `sasToken` is
present, `expiryTime` is parsed unconditionally (raising on absence or on a
parse failure); a non-expired token is the credential, otherwise the
`accountKey` lookup (possibly `none`) is. -/
def resolveCredential (loc : Location) (now : Nat) : Except ContainerErr (Option String) :=
  if (loc.get_parameter "sasToken").isSome then
    match loc.get_parameter "expiryTime" with
    | none => .error .typeError
    | some e =>
      match parseTimestamp e with
      | none => .error .valueError
      | some t =>
        if now ≤ t then .ok (loc.get_parameter "sasToken")
        else .ok (loc.get_parameter "accountKey")
  else .ok (loc.get_parameter "accountKey")

/-- Embeds `Asset._get_container` (src/data_catalog/assets/asset.py, lines
166-190): resolve the credential, then require `accountUrl`,
`containerName` and the credential all non-`None` (the `None in [...]`
check) before the client triple is produced; no I/O happens in this
method. Emptiness of a present value is not checked. -/
def get_container (loc : Location) (now : Nat) : Except ContainerErr (String × String × String) :=
  let accountUrl := loc.get_parameter "accountUrl"
  let containerName := loc.get_parameter "containerName"
  match resolveCredential loc now with
  | .error e => .error e
  | .ok cred =>
    match accountUrl, containerName, cred with
    | some a, some c, some k => .ok (a, c, k)
    | _, _, _ => .error .missingParams

/-- One entry of a version manifest: `content.name` and
`content.last_modified` as consumed by the loop at
src/data_catalog/assets/asset.py lines 130-138. Modelled from the spec:
the `Version`/`ContentEntry` record types of the version service are not
part of the retrieval core; the spec defines a manifest as an ordered
sequence of `ContentEntry \x7bname, lastModified\x7d`. -/
structure ContentEntry where
  name : String
  lastModified : Nat
deriving DecidableEq, Repr

/-- A stored object at its interface: its name, its current
`last_modified` instant, and `table`, the rows that downloading and
parsing it yields (download and the pandas parser are external
collaborators, used at their interface). `α` is the row type. -/
structure Blob (α : Type) where
  name : String
  lastModified : Nat
  table : List α
deriving DecidableEq, Repr

/-- The addressed container at its interface: its current objects in
enumeration order (`container.list_blobs()` order). -/
structure Container (α : Type) where
  blobs : List (Blob α)
deriving DecidableEq, Repr

/-- Looking an object up by name: `container.get_blob_client(name)`
followed by `get_blob_properties()`, which raises `ResourceNotFoundError`
exactly when no current object has the name. -/
def Container.findBlob {α : Type} (c : Container α) (n : String) : Option (Blob α) :=
  c.blobs.find? (fun b => b.name == n)

/-- The failure of the validation loop at src/data_catalog/assets/asset.py
lines 130-138: the `FileNotFoundError('The blob %s was not found, or it
was modified.')` raised for a missing or modified object. -/
inductive FetchErr where
  | staleOrMissing (name : String)
deriving DecidableEq, Repr

/-- Embeds the validation loop of `Asset._get_data_from_container`
(src/data_catalog/assets/asset.py, lines 128-138): for each manifest entry
in order, look the current object up (`ResourceNotFoundError` if absent)
and fail if its `last_modified` is strictly newer than the entry's
watermark; otherwise collect the object. The first bad entry aborts the
whole loop. -/
def validateEntries {α : Type} (c : Container α) : List ContentEntry → Except FetchErr (List (Blob α))
  | [] => .ok []
  | e :: rest =>
    match c.findBlob e.name with
    | none => .error (.staleOrMissing e.name)
    | some b =>
      if e.lastModified < b.lastModified then .error (.staleOrMissing e.name)
      else
        match validateEntries c rest with
        | .error err => .error err
        | .ok bs => .ok (b :: bs)

/-- An entry fails validation: no current object has its name, or the
current object's `last_modified` is strictly greater than the entry's
watermark. -/
def badEntry {α : Type} (c : Container α) (e : ContentEntry) : Bool :=
  match c.findBlob e.name with
  | none => true
  | some b => decide (e.lastModified < b.lastModified)

/-- The table the current object matching an entry parses to (`[]` when no
object matches; `validateEntries` fails in that case before any use). -/
def entryTable {α : Type} (c : Container α) (e : ContentEntry) : List α :=
  match c.findBlob e.name with
  | some b => b.table
  | none => []

/-- Failures of `Asset.get_data` (src/data_catalog/assets/asset.py),
distinguished by raise site: `missingLocation` is
`ValueError('Asset location is not defined')` (line 78), `missingUrl` is
`ValueError('Location has no url parameter')` (line 96), `notImplemented`
is `NotImplementedError` for an unknown location type or format,
`containerConfig` wraps a `_get_container` failure, `staleOrMissing` the
validation failure, and `versionNotFound` the version service's failure
for an unknown version name. -/
inductive GetErr where
  | missingLocation
  | missingUrl
  | notImplemented
  | containerConfig (e : ContainerErr)
  | staleOrMissing (name : String)
  | versionNotFound
deriving DecidableEq, Repr

/-- An asset together with the state of its external collaborators:
`location` and `format` are the `AssetResponse` fields the fetch path
reads; `web` is the HTTP fetch plus parse of a url (external, at its
interface); `store` is the object store container the location addresses;
`versions` is the version service, mapping a version name to its
manifest's ordered entries (Modelled from the spec: `getManifest` returns
the manifest or fails with `NotFound`; the service's code is outside the
retrieval core); `now` is the current instant. -/
structure Asset (α : Type) where
  location : Option Location
  format : String
  web : String → List α
  store : Container α
  versions : String → Option (List ContentEntry)
  now : Nat

/-- Embeds the download-and-parse loops of `Asset._get_data_from_container`
(src/data_catalog/assets/asset.py, lines 140-164): for format `csv` or
`json` each collected object is downloaded and parsed and the tables are
concatenated in order (`pd.concat`, embedded as `List.flatten`); any other
format raises `NotImplementedError`. -/
def download_all {α : Type} (a : Asset α) (bs : List (Blob α)) : Except GetErr (List α) :=
  if a.format = "csv" ∨ a.format = "json" then .ok ((bs.map Blob.table).flatten)
  else .error .notImplemented

/-- Embeds `Asset._get_data_from_url` (src/data_catalog/assets/asset.py,
lines 88-115): require a `url` parameter, then fetch and parse it for
format `csv` or `json` (the fetch and the parser are external; both
formats reduce to `a.web url`), else raise `NotImplementedError`. -/
def get_data_from_url {α : Type} (a : Asset α) (loc : Location) : Except GetErr (List α) :=
  match loc.get_parameter "url" with
  | none => .error .missingUrl
  | some u =>
    if a.format = "csv" ∨ a.format = "json" then .ok (a.web u)
    else .error .notImplemented

/-- Embeds `Asset._get_data_from_container` (src/data_catalog/assets/asset.py,
lines 117-164): build the container client, then either list every current
object (no version requested) or resolve the version's manifest and run
the validation loop; finally download, parse and concatenate the collected
objects in order. -/
def get_data_from_container {α : Type} (a : Asset α) (loc : Location) (version_name : Option String) :
    Except GetErr (List α) :=
  match get_container loc a.now with
  | .error e => .error (.containerConfig e)
  | .ok _ =>
    match version_name with
    | none => download_all a a.store.blobs
    | some v =>
      match a.versions v with
      | none => .error .versionNotFound
      | some entries =>
        match validateEntries a.store entries with
        | .error (FetchErr.staleOrMissing n) => .error (.staleOrMissing n)
        | .ok bs => download_all a bs

/-- Embeds `Asset.get_data` (src/data_catalog/assets/asset.py, lines
67-86): fail when the asset carries no location, dispatch on the location
type (`url` ignores `version_name`; `azureblob` is the object-store path),
and raise `NotImplementedError` for any other type. -/
def get_data {α : Type} (a : Asset α) (version_name : Option String) : Except GetErr (List α) :=
  match a.location with
  | none => .error .missingLocation
  | some loc =>
    if loc.type = "url" then get_data_from_url a loc
    else if loc.type = "azureblob" then get_data_from_container a loc version_name
    else .error .notImplemented

/-- An observable store interaction of the versioned container fetch:
`validate n` is the `get_blob_properties()` call for entry `n` in the
validation loop, `download n` the `download_blob` call for object `n` in
the download loop. -/
inductive Ev where
  | validate (name : String)
  | download (name : String)
deriving DecidableEq, Repr

/-- Whether an event is a validation. -/
def Ev.isValidate : Ev → Bool
  | .validate _ => true
  | .download _ => false

/-- Whether an event is a download. -/
def Ev.isDownload : Ev → Bool
  | .validate _ => false
  | .download _ => true

/-- The validation loop instrumented with its store interactions: the
trace records one `validate` event per entry processed, stopping at the
first failing entry. Same result as `validateEntries`. -/
def validateTrace {α : Type} (c : Container α) : List ContentEntry → List Ev × Except FetchErr (List (Blob α))
  | [] => ([], .ok [])
  | e :: rest =>
    match c.findBlob e.name with
    | none => ([.validate e.name], .error (.staleOrMissing e.name))
    | some b =>
      if e.lastModified < b.lastModified then ([.validate e.name], .error (.staleOrMissing e.name))
      else
        match validateTrace c rest with
        | (tr, .error err) => (.validate e.name :: tr, .error err)
        | (tr, .ok bs) => (.validate e.name :: tr, .ok (b :: bs))

/-- The versioned branch of `Asset._get_data_from_container`
(src/data_catalog/assets/asset.py, lines 126-164) instrumented with its
store interactions: the whole validation loop runs first; only if it
succeeds does the download loop run, one `download` per collected object,
in order. -/
def getDataVersionedTraced {α : Type} (c : Container α) (entries : List ContentEntry) :
    List Ev × Except FetchErr (List α) :=
  match validateTrace c entries with
  | (tr, .error e) => (tr, .error e)
  | (tr, .ok bs) => (tr ++ bs.map (fun b => .download b.name), .ok ((bs.map Blob.table).flatten))

/-- A concrete store: two objects, last modified at instants 10 and 20,
parsing to the tables `[1, 2]` and `[3]`. -/
def contW : Container Nat := ⟨[⟨"b1.csv", 10, [1, 2]⟩, ⟨"b2.csv", 20, [3]⟩]⟩

/-- A concrete object-store location with account-key credentials. -/
def locStore : Location :=
  ⟨"azureblob", [⟨"accountUrl", some "https://acc"⟩, ⟨"containerName", some "cont"⟩,
    ⟨"accountKey", some "K"⟩]⟩

/-- A concrete asset over `locStore` and `contW`, with two recorded
versions: `fresh`, whose two entries both carry watermarks at or above the
current objects, and `stale`, whose first entry has watermark 5 while the
object was last modified at 10. -/
def assetW : Asset Nat :=
  ⟨some locStore, "csv", fun _ => [7, 8], contW,
    fun v =>
      if v = "fresh" then some [⟨"b2.csv", 25⟩, ⟨"b1.csv", 10⟩]
      else if v = "stale" then some [⟨"b1.csv", 5⟩, ⟨"b2.csv", 25⟩]
      else none,
    0⟩

/-- A concrete url-type location. -/
def locUrl : Location := ⟨"url", [⟨"url", some "http://x/data.csv"⟩]⟩

/-- A concrete asset over `locUrl`. -/
def assetUrl : Asset Nat := ⟨some locUrl, "csv", fun _ => [7, 8], contW, fun _ => none, 0⟩

/-- A concrete object-store location with a SAS token expiring at
2021-01-01T00:00:00Z (time key 64956556800) and an account key. -/
def locSas : Location :=
  ⟨"azureblob", [⟨"accountUrl", some "https://acc"⟩, ⟨"containerName", some "cont"⟩,
    ⟨"sasToken", some "T"⟩, ⟨"expiryTime", some "2021-01-01T00:00:00Z"⟩,
    ⟨"accountKey", some "K"⟩]⟩

/-- A concrete object-store location with a SAS token but no `expiryTime`
parameter, and an account key available as fallback. -/
def locSasNoExpiry : Location :=
  ⟨"azureblob", [⟨"sasToken", some "T"⟩, ⟨"accountKey", some "K"⟩,
    ⟨"accountUrl", some "https://acc"⟩, ⟨"containerName", some "cont"⟩]⟩

/-- A concrete object-store location whose `accountUrl` is present but the
empty string. -/
def locEmptyUrl : Location :=
  ⟨"azureblob", [⟨"accountUrl", some ""⟩, ⟨"containerName", some "cont"⟩,
    ⟨"accountKey", some "K"⟩]⟩

/-- A concrete object-store location with no `containerName` parameter. -/
def locNoContainer : Location :=
  ⟨"azureblob", [⟨"accountUrl", some "https://acc"⟩, ⟨"accountKey", some "K"⟩]⟩

/-- A concrete location whose first `k` parameter carries the missing
sentinel as its value, shadowing a later real value. -/
def locSentinel : Location := ⟨"azureblob", [⟨"k", none⟩, ⟨"k", some "v"⟩]⟩

theorem get_parameter_eq_find_bind (loc : Location) (key : String) :
    loc.get_parameter key = (loc.parameters.find? (fun p => p.key == key)).bind Param.value := by
  unfold Location.get_parameter
  induction loc.parameters with
  | nil => rfl
  | cons p ps ih =>
    by_cases hp : (p.key == key) = true
    · simp [List.filter_cons, List.find?_cons, hp]
    · simp only [List.filter_cons, List.find?_cons, hp]
      simpa [hp] using ih

/-- C8: `Location.get_parameter` scans the parameters in order and returns
the value of the first parameter whose key matches; when no parameter
matches it returns the absent sentinel `none`. It is a total function, so
it never raises. -/
theorem c8_get_parameter_first_match (loc : Location) (key : String) :
    loc.get_parameter key = (loc.parameters.find? (fun p => p.key == key)).bind Param.value :=
  get_parameter_eq_find_bind loc key

/-- C10: a parameter present with the missing-value sentinel as its value
is indistinguishable from an absent parameter: if the first parameter
matching the key carries the sentinel, `Location.get_parameter` returns the
same `none` as when no parameter matches. -/
theorem c10_sentinel_value_indistinguishable (loc : Location) (key : String) (p : Param)
    (h1 : loc.parameters.find? (fun q => q.key == key) = some p)
    (h2 : p.value = none) :
    loc.get_parameter key = none := by
  rw [get_parameter_eq_find_bind, h1]
  exact h2

/-- Witness for C10 at `locSentinel`. -/
theorem c10_witness : locSentinel.get_parameter "k" = none :=
  c10_sentinel_value_indistinguishable locSentinel "k" ⟨"k", none⟩ (by decide) rfl

/-- C3: credential resolution for an object-store location. If `sasToken`
is present and `expiryTime` parses to an instant at or after the current
one, the resolved credential is the SAS token value; if the parsed instant
is before the current one, the resolved credential is the `accountKey`
lookup. -/
theorem c3_credential_resolution (loc : Location) (s e : String) (t now : Nat)
    (hs : loc.get_parameter "sasToken" = some s)
    (he : loc.get_parameter "expiryTime" = some e)
    (hp : parseTimestamp e = some t) :
    (now ≤ t → resolveCredential loc now = .ok (some s)) ∧
    (t < now → resolveCredential loc now = .ok (loc.get_parameter "accountKey")) := by
  constructor
  · intro hle
    simp [resolveCredential, hs, he, hp, hle]
  · intro hlt
    simp [resolveCredential, hs, he, hp, Nat.not_le.mpr hlt]

/-- Witness for C3 at `locSas`: before the expiry the token `T` is the
credential, after it the account key `K` is. -/
theorem c3_credential_resolution_witness :
    resolveCredential locSas 5 = .ok (some "T") ∧
    resolveCredential locSas 99999999999 = .ok (some "K") := by
  constructor
  · exact (c3_credential_resolution locSas "T" "2021-01-01T00:00:00Z" 64956556800 5
      (by decide) (by decide) (by decide)).1 (by decide)
  · have h := (c3_credential_resolution locSas "T" "2021-01-01T00:00:00Z" 64956556800
      99999999999 (by decide) (by decide) (by decide)).2 (by decide)
    rw [h]
    decide

/-- Counterexample to C4 as stated: at `locSasNoExpiry` (a `sasToken` but
no `expiryTime`, `accountKey` present) the resolver fails with the
uncaught `TypeError` of `strptime(None, ...)` instead of falling back to
the account key. -/
theorem c4_counterexample :
    resolveCredential locSasNoExpiry 0 = .error ContainerErr.typeError ∧
    ¬ resolveCredential locSasNoExpiry 0 = .ok (some "K") := by
  decide

/-- C4 as amended: when `sasToken` is present but `expiryTime` is absent,
the resolver fails (the unconditional `strptime` receives `None` and
raises `TypeError`); it does not fall back to `accountKey`. -/
theorem c4_missing_expiry_fails (loc : Location) (now : Nat)
    (hs : (loc.get_parameter "sasToken").isSome = true)
    (he : loc.get_parameter "expiryTime" = none) :
    resolveCredential loc now = .error ContainerErr.typeError := by
  simp [resolveCredential, hs, he]

/-- Witness for the amended C4 at `locSasNoExpiry`. -/
theorem c4_missing_expiry_fails_witness :
    resolveCredential locSasNoExpiry 7 = .error ContainerErr.typeError :=
  c4_missing_expiry_fails locSasNoExpiry 7 (by decide) (by decide)

/-- Counterexample to C6 as stated: at `locEmptyUrl` the resolved triple is
not non-empty (`accountUrl` is the empty string), yet retrieval does not
fail with the missing-configuration error; the client triple is built. -/
theorem c6_counterexample :
    get_container locEmptyUrl 0 = .ok ("", "cont", "K") ∧
    ¬ get_container locEmptyUrl 0 = .error ContainerErr.missingParams := by
  decide

/-- C6 as amended: if `accountUrl`, `containerName` or the resolved
credential is absent (`None`), `_get_container` fails with the
missing-parameters error before the client is constructed, hence before
any I/O; only presence is checked, not non-emptiness. -/
theorem c6_missing_config_fails (loc : Location) (now : Nat) (cred : Option String)
    (hres : resolveCredential loc now = .ok cred)
    (hmiss : loc.get_parameter "accountUrl" = none ∨
             loc.get_parameter "containerName" = none ∨ cred = none) :
    get_container loc now = .error ContainerErr.missingParams := by
  rcases hmiss with h | h | h <;>
    cases hau : loc.get_parameter "accountUrl" <;>
    cases hcn : loc.get_parameter "containerName" <;>
    cases hk : cred <;>
    simp_all [get_container]

/-- Witness for the amended C6 at `locNoContainer`. -/
theorem c6_missing_config_fails_witness :
    get_container locNoContainer 3 = .error ContainerErr.missingParams :=
  c6_missing_config_fails locNoContainer 3 (some "K") (by decide)
    (Or.inr (Or.inl (by decide)))

theorem validateEntries_error_of_bad {α : Type} (c : Container α) (entries : List ContentEntry)
    (h : ∃ e ∈ entries, badEntry c e = true) :
    ∃ n, validateEntries c entries = .error (FetchErr.staleOrMissing n) := by
  induction entries with
  | nil => simp at h
  | cons e rest ih =>
    by_cases hb : badEntry c e = true
    · cases hf : c.findBlob e.name with
      | none => exact ⟨e.name, by simp [validateEntries, hf]⟩
      | some b =>
        simp only [badEntry, hf, decide_eq_true_eq] at hb
        exact ⟨e.name, by simp [validateEntries, hf, hb]⟩
    · obtain ⟨e', he', hbad⟩ := h
      rcases List.mem_cons.mp he' with rfl | hmem
      · exact absurd hbad hb
      · obtain ⟨n, hn⟩ := ih ⟨e', hmem, hbad⟩
        cases hf : c.findBlob e.name with
        | none => exact absurd (by simp [badEntry, hf]) hb
        | some b =>
          have hnlt : ¬ e.lastModified < b.lastModified := by
            intro hlt
            exact hb (by simp [badEntry, hf, hlt])
          exact ⟨n, by simp [validateEntries, hf, hnlt, hn]⟩

theorem validateEntries_ok_of_good {α : Type} (c : Container α) (entries : List ContentEntry)
    (h : ∀ e ∈ entries, badEntry c e = false) :
    ∃ bs, validateEntries c entries = .ok bs ∧
      bs.map Blob.table = entries.map (entryTable c) := by
  induction entries with
  | nil => exact ⟨[], rfl, rfl⟩
  | cons e rest ih =>
    have hgood : badEntry c e = false := h e (List.mem_cons_self e rest)
    cases hf : c.findBlob e.name with
    | none => simp [badEntry, hf] at hgood
    | some b =>
      have hnlt : ¬ e.lastModified < b.lastModified := by
        simpa [badEntry, hf] using hgood
      obtain ⟨bs, hbs, htab⟩ := ih (fun e' he' => h e' (List.mem_cons_of_mem e he'))
      refine ⟨b :: bs, ?_, ?_⟩
      · simp [validateEntries, hf, hnlt, hbs]
      · simp [htab, entryTable, hf]

/-- C1: a versioned object-store fetch with any manifest entry that has no
matching current object, or whose current object was modified after the
recorded watermark, fails with the stale-or-missing error, and no table
(in particular no partial concatenation) is returned. -/
theorem c1_stale_version_fails (α : Type) (a : Asset α) (loc : Location) (v : String)
    (entries : List ContentEntry) (trip : String × String × String)
    (hloc : a.location = some loc)
    (htype : loc.type = "azureblob")
    (hcont : get_container loc a.now = .ok trip)
    (hver : a.versions v = some entries)
    (hbad : ∃ e ∈ entries, badEntry a.store e = true) :
    (∃ n, get_data a (some v) = .error (GetErr.staleOrMissing n)) ∧
    ∀ t, ¬ get_data a (some v) = .ok t := by
  obtain ⟨n, hn⟩ := validateEntries_error_of_bad a.store entries hbad
  have hred : get_data a (some v) = .error (GetErr.staleOrMissing n) := by
    simp [get_data, hloc, htype, get_data_from_container, hcont, hver, hn]
  exact ⟨⟨n, hred⟩, fun t ht => by simp [hred] at ht⟩

/-- Witness for C1: the `stale` version of `assetW` records watermark 5
for an object last modified at 10. -/
theorem c1_witness :
    (∃ n, get_data assetW (some "stale") = .error (GetErr.staleOrMissing n)) ∧
    ∀ t, ¬ get_data assetW (some "stale") = .ok t :=
  c1_stale_version_fails Nat assetW locStore "stale"
    [⟨"b1.csv", 5⟩, ⟨"b2.csv", 25⟩] ("https://acc", "cont", "K")
    rfl rfl (by decide) (by decide) (by decide)

/-- C2: a versioned object-store fetch in which every manifest entry has a
matching current object no newer than its watermark succeeds and returns
the concatenation of the per-object tables in exactly the manifest entry
order. -/
theorem c2_fresh_version_order (α : Type) (a : Asset α) (loc : Location) (v : String)
    (entries : List ContentEntry) (trip : String × String × String)
    (hloc : a.location = some loc)
    (htype : loc.type = "azureblob")
    (hcont : get_container loc a.now = .ok trip)
    (hver : a.versions v = some entries)
    (hfmt : a.format = "csv" ∨ a.format = "json")
    (hgood : ∀ e ∈ entries, badEntry a.store e = false) :
    get_data a (some v) = .ok ((entries.map (entryTable a.store)).flatten) := by
  obtain ⟨bs, hbs, htab⟩ := validateEntries_ok_of_good a.store entries hgood
  have htab2 : (bs.map Blob.table).flatten = (entries.map (entryTable a.store)).flatten := by
    rw [htab]
  simp [get_data, hloc, htype, get_data_from_container, hcont, hver, hbs,
    download_all, hfmt, htab2]

/-- Witness for C2: the `fresh` version of `assetW` lists `b2.csv` before
`b1.csv`, and the fetch returns `[3] ++ [1, 2]` in that manifest order. -/
theorem c2_witness : get_data assetW (some "fresh") = .ok [3, 1, 2] := by
  have h := c2_fresh_version_order Nat assetW locStore "fresh"
    [⟨"b2.csv", 25⟩, ⟨"b1.csv", 10⟩] ("https://acc", "cont", "K")
    rfl rfl (by decide) (by decide) (Or.inl rfl) (by decide)
  rw [h]
  decide

/-- C5: an unversioned object-store fetch returns the concatenation of the
tables of every object currently enumerated, in enumeration order, so its
row count is the sum of the per-object row counts. -/
theorem c5_unversioned_row_count (α : Type) (a : Asset α) (loc : Location)
    (trip : String × String × String)
    (hloc : a.location = some loc)
    (htype : loc.type = "azureblob")
    (hcont : get_container loc a.now = .ok trip)
    (hfmt : a.format = "csv" ∨ a.format = "json") :
    get_data a none = .ok ((a.store.blobs.map Blob.table).flatten) ∧
    ((a.store.blobs.map Blob.table).flatten).length
      = (a.store.blobs.map (fun b => b.table.length)).sum := by
  constructor
  · simp [get_data, hloc, htype, get_data_from_container, hcont, download_all, hfmt]
  · rw [List.length_flatten, List.map_map]
    rfl

/-- Witness for C5 at `assetW`. -/
theorem c5_witness :
    get_data assetW none = .ok ((assetW.store.blobs.map Blob.table).flatten) ∧
    ((assetW.store.blobs.map Blob.table).flatten).length
      = (assetW.store.blobs.map (fun b => b.table.length)).sum :=
  c5_unversioned_row_count Nat assetW locStore ("https://acc", "cont", "K")
    rfl rfl (by decide) (Or.inl rfl)

/-- C7: for a url-type location the requested version has no effect:
`get_data` with any version name equals `get_data` with none. -/
theorem c7_url_ignores_version (α : Type) (a : Asset α) (loc : Location) (v : String)
    (hloc : a.location = some loc) (htype : loc.type = "url") :
    get_data a (some v) = get_data a none := by
  simp [get_data, hloc, htype]

/-- Witness for C7 at `assetUrl`. -/
theorem c7_witness : get_data assetUrl (some "v1") = get_data assetUrl none :=
  c7_url_ignores_version Nat assetUrl locUrl "v1" rfl rfl

theorem validateTrace_all_validate {α : Type} (c : Container α) (entries : List ContentEntry) :
    ((validateTrace c entries).1).all Ev.isValidate = true := by
  induction entries with
  | nil => rfl
  | cons e rest ih =>
    cases hf : c.findBlob e.name with
    | none => simp [validateTrace, hf, Ev.isValidate]
    | some b =>
      by_cases hlt : e.lastModified < b.lastModified
      · simp [validateTrace, hf, hlt, Ev.isValidate]
      · cases hvt : validateTrace c rest with
        | mk tr r =>
          have htr : tr.all Ev.isValidate = true := by rw [hvt] at ih; exact ih
          cases r with
          | error err => simpa [validateTrace, hf, hlt, hvt, Ev.isValidate] using htr
          | ok bs => simpa [validateTrace, hf, hlt, hvt, Ev.isValidate] using htr

theorem validateTrace_snd {α : Type} (c : Container α) (entries : List ContentEntry) :
    (validateTrace c entries).2 = validateEntries c entries := by
  induction entries with
  | nil => rfl
  | cons e rest ih =>
    cases hf : c.findBlob e.name with
    | none => simp [validateTrace, validateEntries, hf]
    | some b =>
      by_cases hlt : e.lastModified < b.lastModified
      · simp [validateTrace, validateEntries, hf, hlt]
      · cases hvt : validateTrace c rest with
        | mk tr r =>
          rw [hvt] at ih
          cases r with
          | error err => simp [validateTrace, validateEntries, hf, hlt, hvt, ← ih]
          | ok bs => simp [validateTrace, validateEntries, hf, hlt, hvt, ← ih]

/-- C9: in the versioned container fetch every store interaction of the
validation loop precedes any download; when some manifest entry is stale
or missing, the trace consists of validation events only (zero downloads)
and the fetch fails with the stale-or-missing error. -/
theorem c9_validation_precedes_download (α : Type) (c : Container α)
    (entries : List ContentEntry)
    (hbad : ∃ e ∈ entries, badEntry c e = true) :
    ((getDataVersionedTraced c entries).1).all Ev.isValidate = true ∧
    ((getDataVersionedTraced c entries).1).countP Ev.isDownload = 0 ∧
    ∃ n, (getDataVersionedTraced c entries).2 = .error (FetchErr.staleOrMissing n) := by
  obtain ⟨n, hn⟩ := validateEntries_error_of_bad c entries hbad
  have hsnd := validateTrace_snd c entries
  have hall := validateTrace_all_validate c entries
  cases hvt : validateTrace c entries with
  | mk tr r =>
    rw [hvt] at hsnd hall
    have hr : r = .error (FetchErr.staleOrMissing n) := by
      rw [hn] at hsnd
      exact hsnd
    subst hr
    refine ⟨?_, ?_, n, ?_⟩
    · simpa [getDataVersionedTraced, hvt] using hall
    · have hz : tr.countP Ev.isDownload = 0 := by
        rw [List.countP_eq_zero]
        intro ev hev
        have hv := List.all_eq_true.mp hall ev hev
        cases ev with
        | validate m => simp [Ev.isDownload]
        | download m => simp [Ev.isValidate] at hv
      simpa [getDataVersionedTraced, hvt] using hz
    · simp [getDataVersionedTraced, hvt]

/-- Witness for C9: one stale entry over `contW`; the trace is one
validation, no downloads, and the result is the stale-or-missing error. -/
theorem c9_witness :
    ((getDataVersionedTraced contW [⟨"b1.csv", 5⟩]).1).all Ev.isValidate = true ∧
    ((getDataVersionedTraced contW [⟨"b1.csv", 5⟩]).1).countP Ev.isDownload = 0 ∧
    ∃ n, (getDataVersionedTraced contW [⟨"b1.csv", 5⟩]).2
      = .error (FetchErr.staleOrMissing n) :=
  c9_validation_precedes_download Nat contW [⟨"b1.csv", 5⟩] (by decide)

end DataCatalog
